import Mathlib

/-!
Verification of the fault-classifying retry dispatcher and the gesture path
synthesizer of `module/device/method/uiautomator_2.py`.

The Python code is shallowly embedded: every observable side effect of the
dispatcher (body invocations, log lines, recovery calls, back-off sleeps,
touch operations) is recorded as an `Event`, and raised Python exceptions are
modelled as values of an error type.  The external helpers that are not part
of the translated source (the `handle_adb_error` verdict, the random draws)
enter as explicit parameters so that every definition stays executable.
-/

namespace Alas

/-- Observable side effects of the dispatcher and of the device actions, in
program order.  `invoke` marks the start of one invocation of the wrapped
body; `sleepDelay` is `self.sleep(RETRY_DELAY)`; `sleepFor` is the
per-waypoint `self.sleep(second)` of `_drag_along`. -/
inductive Event where
  | invoke : Event
  | logError : String → Event
  | logException : Event
  | possibleReasonsEv : String → Event
  | adbConnect : Event
  | installUiautomator2 : Event
  | sleepDelay : Event
  | logCritical : String → Event
  | touchDown : Int → Int → Event
  | touchMove : Int → Int → Event
  | touchUp : Int → Int → Event
  | logInfoPoint : Int → Int → String → Event
  | sleepFor : Rat → Event
  deriving DecidableEq, Repr

/-- Exceptions that a wrapped body can raise, one constructor per `except`
clause of the `retry` decorator (source lines 24-54).  The Boolean carried by
`adbError` and `runtimeError` is the verdict of the external secondary helper
`handle_adb_error` for that concrete error: `true` means "handled, safe to
retry", `false` means "unrecoverable". -/
inductive Err where
  | requestHumanTakeover : Err
  | connectionResetError : String → Err
  | jsonDecodeError : String → Err
  | adbError : Bool → Err
  | runtimeError : Bool → Err
  | assertionError : Err
  | unknownError : Err
  deriving DecidableEq, Repr

/-- Message printed by `possible_reasons` in the `AssertionError` branch of
the `retry` decorator (source lines 46-49). -/
def blueStacksMsg : String :=
  "If you are using BlueStacks or LD player, please enable ADB in the settings of your emulator"

/-- The `except` chain of the `retry` decorator (source lines 24-54): for a
raised error, the events the handler emits and whether the loop continues to
the back-off sleep and the next attempt (`true`), or breaks out (`false`). -/
def handlerEvents : Err → List Event × Bool
  | Err.requestHumanTakeover => ([], false)
  | Err.connectionResetError m => ([Event.logError m, Event.adbConnect], true)
  | Err.jsonDecodeError m => ([Event.logError m, Event.installUiautomator2], true)
  | Err.adbError b => ([], b)
  | Err.runtimeError b => ([], b)
  | Err.assertionError => ([Event.logException, Event.possibleReasonsEv blueStacksMsg], false)
  | Err.unknownError => ([Event.logException], true)

/-- The `for _ in range(RETRY_TRIES)` loop of the `retry` decorator (source
lines 21-56).  A body is a function from the attempt index to the events the
attempt emits and its outcome.  Returns the events of the loop and `some v`
when an attempt returned `v`, `none` when the loop was left without a
success (exhaustion or `break`). -/
def retryLoop (body : Nat → List Event × Except Err α) : Nat → Nat → List Event × Option α
  | 0, _ => ([], none)
  | n + 1, i =>
    match body i with
    | (bev, Except.ok v) => (Event.invoke :: bev, some v)
    | (bev, Except.error e) =>
      match handlerEvents e with
      | (hev, true) =>
        let rest := retryLoop body n (i + 1)
        (Event.invoke :: (bev ++ hev ++ Event.sleepDelay :: rest.1), rest.2)
      | (hev, false) => (Event.invoke :: (bev ++ hev), none)

/-- Result of a dispatched action: the returned value, or the raised
`RequestHumanTakeover`.  The `Option String` is the payload of the raised
signal; the source raises the bare class (`raise RequestHumanTakeover`,
line 59), which carries no message. -/
inductive RetryOutcome (α : Type) where
  | ok : α → RetryOutcome α
  | humanTakeover : Option String → RetryOutcome α
  deriving DecidableEq, Repr

/-- The whole `retry` decorator (source lines 15-61): run the loop with
`tries = RETRY_TRIES`; if it ends without a success, log the critical line
naming the wrapped function and raise the bare `RequestHumanTakeover`. -/
def retry (tries : Nat) (name : String) (body : Nat → List Event × Except Err α) :
    List Event × RetryOutcome α :=
  match retryLoop body tries 0 with
  | (evs, some v) => (evs, RetryOutcome.ok v)
  | (evs, none) =>
    (evs ++ [Event.logCritical ("Retry " ++ name ++ "() failed")], RetryOutcome.humanTakeover none)

/-- A body that fails on every invocation with an unknown, unclassified
exception (the plain-`Retryable` cause of the spec). -/
def alwaysUnknown : Nat → List Event × Except Err Nat :=
  fun _ => ([], Except.error Err.unknownError)

lemma retryLoop_alwaysUnknown (n : Nat) :
    ∀ i, retryLoop alwaysUnknown n i =
      ((List.replicate n [Event.invoke, Event.logException, Event.sleepDelay]).flatten, none) := by
  induction n with
  | zero => intro i; simp [retryLoop]
  | succ n ih =>
    intro i
    simp [retryLoop, alwaysUnknown, handlerEvents, ih (i + 1), List.replicate_succ]

lemma count_flatten_replicate (a : Event) (l : List Event) (n : Nat) :
    ((List.replicate n l).flatten.count a) = n * l.count a := by
  induction n with
  | zero => simp
  | succ n ih => simp [List.replicate_succ, List.count_append, ih, Nat.succ_mul, Nat.add_comm]

/-- C1: for every configured retry bound `N`, a body failing on every attempt
with an unknown (Retryable-classified) exception is invoked exactly `N`
times, never more, after which the dispatcher raises the single
`RequestHumanTakeover` escalation. -/
theorem retry_retryable_exhausts_then_takeover (N : Nat) (name : String) :
    (retry N name alwaysUnknown).1.count Event.invoke = N ∧
    (retry N name alwaysUnknown).2 = RetryOutcome.humanTakeover none := by
  have h := retryLoop_alwaysUnknown N 0
  constructor
  · show (retry N name alwaysUnknown).1.count Event.invoke = N
    simp [retry, h, List.count_append, count_flatten_replicate]
  · simp [retry, h]

/-- A body that fails once on its first invocation with the given error and
then succeeds, returning 7. -/
def failThenOk (e : Err) : Nat → List Event × Except Err Nat :=
  fun i => if i = 0 then ([], Except.error e) else ([], Except.ok 7)

/-- C2: per-error behaviour of the dispatcher's handler chain, shown on a
body failing once with each kind of error: a connection reset triggers
exactly one reconnect (`adb_connect`) between the failing attempt and the
next, a JSON decode error exactly one agent reinstall
(`install_uiautomator2`), Adb and runtime errors follow the secondary
helper's verdict (retry on `true`, fatal on `false`, no recovery call), an
assertion error is fatal after the emulator hint, and an unknown error
retries with no recovery step at all. -/
theorem retry_classification_recovery (nm m : String) :
    retry 2 nm (failThenOk (Err.connectionResetError m)) =
      ([Event.invoke, Event.logError m, Event.adbConnect, Event.sleepDelay, Event.invoke],
        RetryOutcome.ok 7) ∧
    retry 2 nm (failThenOk (Err.jsonDecodeError m)) =
      ([Event.invoke, Event.logError m, Event.installUiautomator2, Event.sleepDelay, Event.invoke],
        RetryOutcome.ok 7) ∧
    retry 2 nm (failThenOk (Err.adbError true)) =
      ([Event.invoke, Event.sleepDelay, Event.invoke], RetryOutcome.ok 7) ∧
    retry 2 nm (failThenOk (Err.adbError false)) =
      ([Event.invoke, Event.logCritical ("Retry " ++ nm ++ "() failed")],
        RetryOutcome.humanTakeover none) ∧
    retry 2 nm (failThenOk (Err.runtimeError true)) =
      ([Event.invoke, Event.sleepDelay, Event.invoke], RetryOutcome.ok 7) ∧
    retry 2 nm (failThenOk (Err.runtimeError false)) =
      ([Event.invoke, Event.logCritical ("Retry " ++ nm ++ "() failed")],
        RetryOutcome.humanTakeover none) ∧
    retry 2 nm (failThenOk Err.assertionError) =
      ([Event.invoke, Event.logException, Event.possibleReasonsEv blueStacksMsg,
        Event.logCritical ("Retry " ++ nm ++ "() failed")],
        RetryOutcome.humanTakeover none) ∧
    retry 2 nm (failThenOk Err.unknownError) =
      ([Event.invoke, Event.logException, Event.sleepDelay, Event.invoke], RetryOutcome.ok 7) :=
  ⟨rfl, rfl, rfl, rfl, rfl, rfl, rfl, rfl⟩

/-- A body that fails with unknown (retryable) errors on every attempt before
the `k`-th and raises `RequestHumanTakeover` on attempt number `k` (attempt
indices are 0-based, so attempt `k` has index `k - 1`). -/
def failUntilTakeover (k : Nat) : Nat → List Event × Except Err Nat :=
  fun i => ([], Except.error (if i + 1 = k then Err.requestHumanTakeover else Err.unknownError))

lemma retryLoop_shift (body : Nat → List Event × Except Err α) :
    ∀ n i, retryLoop body n (i + 1) = retryLoop (fun j => body (j + 1)) n i := by
  intro n
  induction n with
  | zero => intro i; rfl
  | succ n ih =>
    intro i
    show retryLoop body (n + 1) (i + 1) = retryLoop (fun j => body (j + 1)) (n + 1) i
    simp only [retryLoop]
    cases hb : body (i + 1) with
    | mk bev r =>
      cases r with
      | ok v => simp [hb]
      | error e =>
        cases hh : handlerEvents e with
        | mk hev cont =>
          cases cont <;> simp [hb, hh, ih (i + 1)]

lemma failUntilTakeover_shift (k : Nat) :
    (fun j => failUntilTakeover (k + 1) (j + 1)) = failUntilTakeover k := by
  funext j
  have h : (j + 1 + 1 = k + 1) ↔ (j + 1 = k) := by omega
  simp [failUntilTakeover, h]

lemma retryLoop_failUntilTakeover (k' : Nat) :
    ∀ n, k' + 1 ≤ n →
      retryLoop (failUntilTakeover (k' + 1)) n 0 =
        ((List.replicate k' [Event.invoke, Event.logException, Event.sleepDelay]).flatten
          ++ [Event.invoke], none) := by
  induction k' with
  | zero =>
    intro n hn
    obtain ⟨n', rfl⟩ : ∃ n', n = n' + 1 := ⟨n - 1, by omega⟩
    simp [retryLoop, failUntilTakeover, handlerEvents]
  | succ k ih =>
    intro n hn
    obtain ⟨n', rfl⟩ : ∃ n', n = n' + 1 := ⟨n - 1, by omega⟩
    have hb : failUntilTakeover (k + 1 + 1) 0 = ([], Except.error Err.unknownError) := by
      simp only [failUntilTakeover]
      rw [if_neg (by omega)]
    have hrest : retryLoop (failUntilTakeover (k + 1 + 1)) n' 1 =
        ((List.replicate k [Event.invoke, Event.logException, Event.sleepDelay]).flatten
          ++ [Event.invoke], none) := by
      have hs := retryLoop_shift (failUntilTakeover (k + 1 + 1)) n' 0
      rw [show (1 : Nat) = 0 + 1 from rfl, hs, failUntilTakeover_shift (k + 1)]
      exact ih n' (by omega)
    simp [retryLoop, hb, handlerEvents, hrest, List.replicate_succ]

/-- C3: if the body raises `RequestHumanTakeover` on attempt `k ≤ N`, the
dispatcher makes exactly `k` invocations of the body, sleeps the back-off
only after the `k - 1` earlier attempts (never after the takeover), and
raises the escalation signal. -/
theorem retry_humanTakeover_short_circuits (N k : Nat) (name : String)
    (hk : 1 ≤ k) (hkN : k ≤ N) :
    (retry N name (failUntilTakeover k)).1.count Event.invoke = k ∧
    (retry N name (failUntilTakeover k)).1.count Event.sleepDelay = k - 1 ∧
    (retry N name (failUntilTakeover k)).2 = RetryOutcome.humanTakeover none := by
  obtain ⟨k', rfl⟩ : ∃ k', k = k' + 1 := ⟨k - 1, by omega⟩
  have h := retryLoop_failUntilTakeover k' N (by omega)
  refine ⟨?_, ?_, ?_⟩ <;>
    simp [retry, h, List.count_append, count_flatten_replicate, List.count_cons]

/-- Witness for C3 at `N = 3`, `k = 2`. -/
theorem retry_humanTakeover_short_circuits_witness :
    1 ≤ 2 ∧ 2 ≤ 3 ∧
      ((retry 3 "click_uiautomator2" (failUntilTakeover 2)).1.count Event.invoke = 2 ∧
       (retry 3 "click_uiautomator2" (failUntilTakeover 2)).1.count Event.sleepDelay = 2 - 1 ∧
       (retry 3 "click_uiautomator2" (failUntilTakeover 2)).2 =
         RetryOutcome.humanTakeover none) :=
  ⟨by decide, by decide,
    retry_humanTakeover_short_circuits 3 2 "click_uiautomator2" (by decide) (by decide)⟩

/-- The escalation signal carries a label (the property C4 asserts of the
raised signal). -/
def carriesLabel (o : RetryOutcome Nat) : Prop :=
  ∃ l : String, o = RetryOutcome.humanTakeover (some l)

/-- C4 counterexample: the dispatcher raises the bare `RequestHumanTakeover`
(source line 59), which carries no label at all — in particular not the
failed action's name `screenshot_uiautomator2`. -/
theorem retry_escalation_carries_no_label :
    (retry 5 "screenshot_uiautomator2" alwaysUnknown).2 = RetryOutcome.humanTakeover none ∧
    ¬ carriesLabel (retry 5 "screenshot_uiautomator2" alwaysUnknown).2 := by
  have h : (retry 5 "screenshot_uiautomator2" alwaysUnknown).2 =
      RetryOutcome.humanTakeover none := by
    have h5 := retryLoop_alwaysUnknown 5 0
    simp [retry, h5]
  refine ⟨h, ?_⟩
  rintro ⟨l, hl⟩
  rw [h] at hl
  simp at hl

/-- Detects the critical log line of the dispatcher. -/
def isCriticalEv : Event → Bool
  | Event.logCritical _ => true
  | _ => false

lemma filter_critical_flatten_replicate (n : Nat) :
    ((List.replicate n
      [Event.invoke, Event.logException, Event.sleepDelay]).flatten.filter isCriticalEv) = [] := by
  induction n with
  | zero => simp
  | succ n ih => simp [List.replicate_succ, isCriticalEv, ih]

/-- C4 amended: on escalation the dispatcher raises a single canonical
human-takeover signal, which itself carries no label; exactly one critical
log line, naming the failed action, is emitted, and it is the last event
before the terminal signal. -/
theorem retry_escalation_critical_line_precedes (N : Nat) (name : String) :
    (retry N name alwaysUnknown).2 = RetryOutcome.humanTakeover none ∧
    (retry N name alwaysUnknown).1.filter isCriticalEv =
      [Event.logCritical ("Retry " ++ name ++ "() failed")] ∧
    (retry N name alwaysUnknown).1.getLast? =
      some (Event.logCritical ("Retry " ++ name ++ "() failed")) := by
  have h := retryLoop_alwaysUnknown N 0
  refine ⟨by simp [retry, h], ?_, ?_⟩
  · simp [retry, h, List.filter_append, filter_critical_flatten_replicate, isCriticalEv]
  · rw [show (retry N name alwaysUnknown).1 =
      (List.replicate N [Event.invoke, Event.logException, Event.sleepDelay]).flatten ++
        [Event.logCritical ("Retry " ++ name ++ "() failed")] by simp [retry, h]]
    rw [List.getLast?_append_cons]
    rfl

/-- Exceptions the underlying `u2.app_start` call can raise: an agent base
error (`u2.exceptions.BaseError`, e.g. `package "..." not found`) with its
message, or any other exception, which propagates unhandled through the
`try` of `app_start_uiautomator2` into the dispatcher. -/
inductive U2Err where
  | baseError : String → U2Err
  | otherErr : Err → U2Err
  deriving DecidableEq, Repr

/-- Configuration-hint message of `app_start_uiautomator2` (source line 177). -/
def packageHint (pkg : String) : String :=
  "\"" ++ pkg ++ "\" not found, please check setting Emulator.PackageName"

/-- Body of `app_start_uiautomator2` (source lines 171-178): call
`u2.app_start`; on a `BaseError` log it, print the configuration hint and
raise `RequestHumanTakeover`; let every other exception propagate.  The
behaviour of the underlying call on each attempt is the parameter `call`. -/
def app_start_body (pkg : String) (call : Nat → Except U2Err Unit) :
    Nat → List Event × Except Err Unit :=
  fun i =>
    match call i with
    | Except.ok _ => ([], Except.ok ())
    | Except.error (U2Err.baseError m) =>
      ([Event.logError m, Event.possibleReasonsEv (packageHint pkg)],
        Except.error Err.requestHumanTakeover)
    | Except.error (U2Err.otherErr e) => ([], Except.error e)

/-- `app_start_uiautomator2` with its `@retry` decorator (source lines
170-178). -/
def app_start_uiautomator2 (tries : Nat) (pkg : String) (call : Nat → Except U2Err Unit) :
    List Event × RetryOutcome Unit :=
  retry tries "app_start_uiautomator2" (app_start_body pkg call)

lemma app_start_base_error_run (T : Nat) (pkg m : String)
    (call : Nat → Except U2Err Unit) (hT : 1 ≤ T)
    (hc : call 0 = Except.error (U2Err.baseError m)) :
    app_start_uiautomator2 T pkg call =
      ([Event.invoke, Event.logError m, Event.possibleReasonsEv (packageHint pkg),
        Event.logCritical "Retry app_start_uiautomator2() failed"],
        RetryOutcome.humanTakeover none) := by
  obtain ⟨T', rfl⟩ : ∃ T', T = T' + 1 := ⟨T - 1, by omega⟩
  have hloop : retryLoop (app_start_body pkg call) (T' + 1) 0 =
      ([Event.invoke, Event.logError m, Event.possibleReasonsEv (packageHint pkg)], none) := by
    simp [retryLoop, app_start_body, hc, handlerEvents]
  simp [app_start_uiautomator2, retry, hloop]

/-- C5: if the underlying app-start call reports `package "..." not found`,
`app_start_uiautomator2` logs the error, prints the configuration hint and
escalates with `RequestHumanTakeover` at once — the underlying call is
invoked exactly once, no retry attempt beyond the first is consumed. -/
theorem app_start_package_not_found_escalates (T : Nat) (pkg : String)
    (call : Nat → Except U2Err Unit) (hT : 1 ≤ T)
    (hc : call 0 = Except.error (U2Err.baseError ("package \"" ++ pkg ++ "\" not found"))) :
    app_start_uiautomator2 T pkg call =
      ([Event.invoke, Event.logError ("package \"" ++ pkg ++ "\" not found"),
        Event.possibleReasonsEv (packageHint pkg),
        Event.logCritical "Retry app_start_uiautomator2() failed"],
        RetryOutcome.humanTakeover none) ∧
    (app_start_uiautomator2 T pkg call).1.count Event.invoke = 1 := by
  have h := app_start_base_error_run T pkg ("package \"" ++ pkg ++ "\" not found") call hT hc
  exact ⟨h, by rw [h]; rfl⟩

/-- A concrete underlying call that always reports the missing package. -/
def missingPkgCall : Nat → Except U2Err Unit :=
  fun _ => Except.error (U2Err.baseError "package \"com.example.missing\" not found")

/-- Witness for C5 at `tries = 5`, package `com.example.missing`. -/
theorem app_start_package_not_found_escalates_witness :
    1 ≤ 5 ∧
    missingPkgCall 0 =
      Except.error (U2Err.baseError ("package \"" ++ "com.example.missing" ++ "\" not found")) ∧
    (app_start_uiautomator2 5 "com.example.missing" missingPkgCall).1.count Event.invoke = 1 :=
  ⟨by decide, rfl,
    (app_start_package_not_found_escalates 5 "com.example.missing" missingPkgCall
      (by decide) rfl).2⟩

/-- C10: every agent base error — whatever its message — raised by the
underlying app-start call makes `app_start_uiautomator2` escalate with
`RequestHumanTakeover` after a single invocation of the call; no retry of
the app-start call ever occurs. -/
theorem app_start_any_base_error_escalates (T : Nat) (pkg m : String)
    (call : Nat → Except U2Err Unit) (hT : 1 ≤ T)
    (hc : call 0 = Except.error (U2Err.baseError m)) :
    (app_start_uiautomator2 T pkg call).1.count Event.invoke = 1 ∧
    (app_start_uiautomator2 T pkg call).2 = RetryOutcome.humanTakeover none := by
  have h := app_start_base_error_run T pkg m call hT hc
  exact ⟨by rw [h]; rfl, by rw [h]⟩

/-- A concrete underlying call failing with a base error unrelated to a
missing package. -/
def brokenAgentCall : Nat → Except U2Err Unit :=
  fun _ => Except.error (U2Err.baseError "uiautomator agent is not responding")

/-- Witness for C10 at `tries = 4` with a non-package-not-found base error. -/
theorem app_start_any_base_error_escalates_witness :
    1 ≤ 4 ∧
    brokenAgentCall 0 =
      Except.error (U2Err.baseError "uiautomator agent is not responding") ∧
    ((app_start_uiautomator2 4 "com.bilibili.azurlane" brokenAgentCall).1.count Event.invoke = 1 ∧
     (app_start_uiautomator2 4 "com.bilibili.azurlane" brokenAgentCall).2 =
       RetryOutcome.humanTakeover none) :=
  ⟨by decide, rfl,
    app_start_any_base_error_escalates 4 "com.bilibili.azurlane"
      "uiautomator agent is not responding" brokenAgentCall (by decide) rfl⟩

/-- An axis-aligned rectangle `(x1, y1, x2, y2)`, the shape of the
`point_random` and `shake_random` arguments of `drag_uiautomator2`. -/
structure Rect where
  x1 : Rat
  y1 : Rat
  x2 : Rat
  y2 : Rat

/-- Membership of a point in a rectangle; a random draw of
`random_rectangle_point(r)` is some point satisfying this. -/
def inRect (p : Rat × Rat) (r : Rect) : Prop :=
  r.x1 ≤ p.1 ∧ p.1 ≤ r.x2 ∧ r.y1 ≤ p.2 ∧ p.2 ≤ r.y2

instance (p : Rat × Rat) (r : Rect) : Decidable (inRect p r) :=
  inferInstanceAs (Decidable (_ ≤ _ ∧ _ ≤ _ ∧ _ ≤ _ ∧ _ ≤ _))

/-- The four random draws `drag_uiautomator2` makes (source lines 150-155):
`j1`, `j2` are the `random_rectangle_point(point_random)` draws subtracted
from `p1` and `p2`; `s1`, `s2` the `random_rectangle_point(shake_random)`
draws added to and subtracted from the shake.  Passing them explicitly makes
the randomized synthesis a deterministic function of its draws. -/
structure DragDraws where
  j1 : Rat × Rat
  j2 : Rat × Rat
  s1 : Rat × Rat
  s2 : Rat × Rat

/-- Modelled from the spec: `random_line_segments` (from `module.base.utils`,
not part of the translated source) interpolates `n` evenly-spaced segments
between the two endpoints and returns the endpoints together with the
`n - 1` intermediate points; for `n = 1` it is just the two endpoints. -/
def random_line_segments (p1 p2 : Rat × Rat) (n : Nat) : List (Rat × Rat) :=
  p1 :: ((List.range (n - 1)).map fun i =>
    (p1.1 + (((i : Rat) + 1) / (n : Rat)) * (p2.1 - p1.1),
     p1.2 + (((i : Rat) + 1) / (n : Rat)) * (p2.2 - p1.2))) ++ [p2]

/-- Python `int()` on a rational: truncation toward zero.  This is the
coordinate conversion applied by `drag_uiautomator2` (source line 158). -/
def pyInt (q : Rat) : Int := if 0 ≤ q then ⌊q⌋ else ⌈q⌉

/-- The waypoint list built by `drag_uiautomator2` before the integer
conversion (source lines 150-157): jittered line points with
`swipe_duration`, then overshoot, correction and settle points with
`shake_duration`. -/
def drag_path_raw (p1 p2 : Rat × Rat) (segments : Nat) (shake : Rat × Rat)
    (swipe_duration shake_duration : Rat) (dr : DragDraws) : List (Rat × Rat × Rat) :=
  let q1 := (p1.1 - dr.j1.1, p1.2 - dr.j1.2)
  let q2 := (p2.1 - dr.j2.1, p2.2 - dr.j2.2)
  ((random_line_segments q1 q2 segments).map fun p => (p.1, p.2, swipe_duration)) ++
    [(q2.1 + shake.1 + dr.s1.1, q2.2 + shake.2 + dr.s1.2, shake_duration),
     (q2.1 - shake.1 - dr.s2.1, q2.2 - shake.2 - dr.s2.2, shake_duration),
     (q2.1, q2.2, shake_duration)]

/-- The path `drag_uiautomator2` hands to `_drag_along` (source lines
150-158): the raw waypoints with every coordinate through Python `int()`,
durations unchanged. -/
def drag_uiautomator2_path (p1 p2 : Rat × Rat) (segments : Nat) (shake : Rat × Rat)
    (swipe_duration shake_duration : Rat) (dr : DragDraws) : List (Int × Int × Rat) :=
  (drag_path_raw p1 p2 segments shake swipe_duration shake_duration dr).map
    fun w => (pyInt w.1, pyInt w.2.1, w.2.2)

/-- Touch phase of a waypoint. -/
inductive Phase where
  | down : Phase
  | move : Phase
  | up : Phase
  deriving DecidableEq, Repr

/-- Phase assigned by the branch structure of `_drag_along` (source lines
120-128) to the waypoint at index `i` of a path of length `len`. -/
def phaseAt (len i : Nat) : Phase :=
  if i = 0 then Phase.down else if i + 1 = len then Phase.up else Phase.move

lemma pyInt_intCast (n : Int) : pyInt (n : Rat) = n := by
  unfold pyInt
  split
  · exact Int.floor_intCast n
  · exact Int.ceil_intCast n

lemma inRect_zero {p : Rat × Rat} (h : inRect p (Rect.mk 0 0 0 0)) : p = (0, 0) := by
  obtain ⟨h1, h2, h3, h4⟩ := h
  have : p.1 = 0 := le_antisymm h2 h1
  have : p.2 = 0 := le_antisymm h4 h3
  exact Prod.ext (by assumption) (by assumption)

/-- C6: for `segments = 1`, `shake = (0, 15)` and zero-width jitter ranges,
the synthesized path has exactly five waypoints — jittered start, jittered
end, overshoot at `p2 + shake`, correction at `p2 - shake`, settle at `p2` —
the line waypoints holding `swipe_duration` and the three tail waypoints
`shake_duration`; under `_drag_along`'s branching the first waypoint is
Down, the last is Up, and the three in between are Move. -/
theorem drag_segments_one_path (p1x p1y p2x p2y : Int) (sw sh : Rat) (dr : DragDraws)
    (h1 : inRect dr.j1 (Rect.mk 0 0 0 0)) (h2 : inRect dr.j2 (Rect.mk 0 0 0 0))
    (h3 : inRect dr.s1 (Rect.mk 0 0 0 0)) (h4 : inRect dr.s2 (Rect.mk 0 0 0 0)) :
    drag_uiautomator2_path ((p1x : Rat), (p1y : Rat)) ((p2x : Rat), (p2y : Rat)) 1 (0, 15)
        sw sh dr =
      [(p1x, p1y, sw), (p2x, p2y, sw), (p2x, p2y + 15, sh), (p2x, p2y - 15, sh),
        (p2x, p2y, sh)] ∧
    (drag_uiautomator2_path ((p1x : Rat), (p1y : Rat)) ((p2x : Rat), (p2y : Rat)) 1 (0, 15)
        sw sh dr).length = 5 ∧
    phaseAt 5 0 = Phase.down ∧ phaseAt 5 4 = Phase.up ∧
    (∀ i, 1 ≤ i → i ≤ 3 → phaseAt 5 i = Phase.move) := by
  have hj1 := inRect_zero h1
  have hj2 := inRect_zero h2
  have hs1 := inRect_zero h3
  have hs2 := inRect_zero h4
  have hraw : drag_path_raw ((p1x : Rat), (p1y : Rat)) ((p2x : Rat), (p2y : Rat)) 1 (0, 15)
      sw sh dr =
      [((p1x : Rat), (p1y : Rat), sw), ((p2x : Rat), (p2y : Rat), sw),
       ((p2x : Rat), (((p2y + 15 : Int) : Rat)), sh),
       ((p2x : Rat), (((p2y - 15 : Int) : Rat)), sh),
       ((p2x : Rat), (p2y : Rat), sh)] := by
    push_cast
    simp [drag_path_raw, random_line_segments, hj1, hj2, hs1, hs2]
  have hpath : drag_uiautomator2_path ((p1x : Rat), (p1y : Rat)) ((p2x : Rat), (p2y : Rat)) 1
      (0, 15) sw sh dr =
      [(p1x, p1y, sw), (p2x, p2y, sw), (p2x, p2y + 15, sh), (p2x, p2y - 15, sh),
        (p2x, p2y, sh)] := by
    rw [drag_uiautomator2_path, hraw]
    simp only [List.map_cons, List.map_nil, pyInt_intCast]
  refine ⟨hpath, by rw [hpath]; rfl, rfl, rfl, ?_⟩
  intro i h1i h3i
  interval_cases i <;> rfl

/-- All-zero random draws: the only draws a zero-width rectangle admits. -/
def zeroDraws : DragDraws :=
  { j1 := (0, 0), j2 := (0, 0), s1 := (0, 0), s2 := (0, 0) }

/-- Witness for C6 with `p1 = (100, 200)`, `p2 = (300, 400)`,
`swipe_duration = 1/4`, `shake_duration = 1/10` and all draws zero. -/
theorem drag_segments_one_path_witness :
    inRect zeroDraws.j1 (Rect.mk 0 0 0 0) ∧ inRect zeroDraws.j2 (Rect.mk 0 0 0 0) ∧
    inRect zeroDraws.s1 (Rect.mk 0 0 0 0) ∧ inRect zeroDraws.s2 (Rect.mk 0 0 0 0) ∧
    drag_uiautomator2_path (((100 : Int) : Rat), ((200 : Int) : Rat))
        (((300 : Int) : Rat), ((400 : Int) : Rat)) 1 (0, 15) (1 / 4) (1 / 10) zeroDraws =
      [(100, 200, 1 / 4), (300, 400, 1 / 4), (300, 415, 1 / 10), (300, 385, 1 / 10),
        (300, 400, 1 / 10)] :=
  ⟨⟨le_refl 0, le_refl 0, le_refl 0, le_refl 0⟩, ⟨le_refl 0, le_refl 0, le_refl 0, le_refl 0⟩,
    ⟨le_refl 0, le_refl 0, le_refl 0, le_refl 0⟩, ⟨le_refl 0, le_refl 0, le_refl 0, le_refl 0⟩,
    (drag_segments_one_path 100 200 300 400 (1 / 4) (1 / 10) zeroDraws
      ⟨le_refl 0, le_refl 0, le_refl 0, le_refl 0⟩ ⟨le_refl 0, le_refl 0, le_refl 0, le_refl 0⟩
      ⟨le_refl 0, le_refl 0, le_refl 0, le_refl 0⟩
      ⟨le_refl 0, le_refl 0, le_refl 0, le_refl 0⟩).1⟩

/-- The synthesized path as C8's words describe the rounding step: every
coordinate rounded to the nearest integer (`round`), kept alongside
`drag_uiautomator2_path` (which applies Python `int()`) for comparison. -/
def drag_uiautomator2_path_nearest (p1 p2 : Rat × Rat) (segments : Nat) (shake : Rat × Rat)
    (swipe_duration shake_duration : Rat) (dr : DragDraws) : List (Int × Int × Rat) :=
  (drag_path_raw p1 p2 segments shake swipe_duration shake_duration dr).map
    fun w => (round w.1, round w.2.1, w.2.2)

lemma pyInt_two_thirds : pyInt (2 / 3 : Rat) = 0 := by
  unfold pyInt
  rw [if_pos (by norm_num), Int.floor_eq_iff]
  norm_num

lemma round_two_thirds : round (2 / 3 : Rat) = 1 := by
  rw [round_eq, Int.floor_eq_iff]
  norm_num

lemma drag_raw_two_thirds :
    drag_path_raw (0, 0) (2, 2) 3 (0, 15) (1 / 4) (1 / 10) zeroDraws =
      [(0, 0, 1 / 4), (2 / 3, 2 / 3, 1 / 4), (4 / 3, 4 / 3, 1 / 4), (2, 2, 1 / 4),
       (2, 17, 1 / 10), (2, -13, 1 / 10), (2, 2, 1 / 10)] := by
  norm_num [drag_path_raw, random_line_segments, zeroDraws, List.range_succ]

/-- C8 counterexample: with `segments = 3`, `p1 = (0, 0)`, `p2 = (2, 2)` and
zero draws, the first interior interpolation point has real-valued
coordinates `(2/3, 2/3)`; the code emits `(0, 0)` (Python `int()`
truncates), while the nearest integers are `(1, 1)`.  The emitted path
therefore differs from the nearest-rounded path the claim describes. -/
theorem drag_rounding_not_nearest :
    (drag_path_raw (0, 0) (2, 2) 3 (0, 15) (1 / 4) (1 / 10) zeroDraws).get? 1 =
      some (2 / 3, 2 / 3, 1 / 4) ∧
    (drag_uiautomator2_path (0, 0) (2, 2) 3 (0, 15) (1 / 4) (1 / 10) zeroDraws).get? 1 =
      some (0, 0, 1 / 4) ∧
    (drag_uiautomator2_path_nearest (0, 0) (2, 2) 3 (0, 15) (1 / 4) (1 / 10) zeroDraws).get? 1 =
      some (1, 1, 1 / 4) ∧
    drag_uiautomator2_path (0, 0) (2, 2) 3 (0, 15) (1 / 4) (1 / 10) zeroDraws ≠
      drag_uiautomator2_path_nearest (0, 0) (2, 2) 3 (0, 15) (1 / 4) (1 / 10) zeroDraws := by
  have h1 : (drag_path_raw (0, 0) (2, 2) 3 (0, 15) (1 / 4) (1 / 10) zeroDraws).get? 1 =
      some (2 / 3, 2 / 3, 1 / 4) := by
    rw [drag_raw_two_thirds]
    rfl
  have h2 : (drag_uiautomator2_path (0, 0) (2, 2) 3 (0, 15) (1 / 4) (1 / 10) zeroDraws).get? 1 =
      some (0, 0, 1 / 4) := by
    rw [drag_uiautomator2_path, drag_raw_two_thirds]
    simp [List.get?, pyInt_two_thirds]
  have h3 : (drag_uiautomator2_path_nearest (0, 0) (2, 2) 3 (0, 15) (1 / 4) (1 / 10)
      zeroDraws).get? 1 = some (1, 1, 1 / 4) := by
    rw [drag_uiautomator2_path_nearest, drag_raw_two_thirds]
    simp [List.get?, round_two_thirds]
  refine ⟨h1, h2, h3, fun hEq => ?_⟩
  have hsame := congrArg (fun l => l.get? 1) hEq
  simp only [h2, h3] at hsame
  simp at hsame

/-- C8 amended: every coordinate emitted by the synthesizer is the Python
`int()` of the corresponding real-valued coordinate — truncation toward
zero, the integer of absolute value at most `|c|` within distance `1` of
`c` — not rounding to nearest; the per-waypoint durations are passed
through unchanged. -/
theorem drag_rounding_truncates (p1 p2 : Rat × Rat) (n : Nat) (shake : Rat × Rat)
    (sw sh : Rat) (dr : DragDraws) (q : Rat) :
    drag_uiautomator2_path p1 p2 n shake sw sh dr =
      (drag_path_raw p1 p2 n shake sw sh dr).map
        (fun w => (pyInt w.1, pyInt w.2.1, w.2.2)) ∧
    |(pyInt q : Rat) - q| < 1 ∧ |(pyInt q : Rat)| ≤ |q| := by
  refine ⟨rfl, ?_, ?_⟩
  · unfold pyInt
    split
    · rw [abs_sub_lt_iff]
      constructor
      · have := Int.floor_le q
        push_cast at this ⊢
        linarith
      · have := Int.lt_floor_add_one q
        push_cast at this ⊢
        linarith
    · rw [abs_sub_lt_iff]
      constructor
      · have := Int.ceil_lt_add_one q
        push_cast at this ⊢
        linarith
      · have := Int.le_ceil q
        push_cast at this ⊢
        linarith
  · unfold pyInt
    split
    · rename_i h
      rw [abs_of_nonneg h, abs_of_nonneg]
      · exact_mod_cast Int.floor_le q
      · exact_mod_cast Int.floor_nonneg.mpr h
    · rename_i h
      push_neg at h
      rw [abs_of_neg h, abs_of_nonpos]
      · have := Int.le_ceil q
        linarith
      · have : ⌈q⌉ ≤ 0 := Int.ceil_le.mpr (by exact_mod_cast h.le)
        exact_mod_cast this

/-- The body of one loop iteration of `_drag_along` (source lines 118-129)
for the waypoint at index `i` of a path of length `len`: the touch
operation chosen by the `if index == 0 / elif index - length == -1 / else`
chain, the info log line, and the `self.sleep(second)` of the waypoint. -/
def dragStepEvents (len i : Nat) (w : Int × Int × Rat) : List Event :=
  if i = 0 then
    [Event.touchDown w.1 w.2.1, Event.logInfoPoint w.1 w.2.1 "down", Event.sleepFor w.2.2]
  else if i + 1 = len then
    [Event.touchUp w.1 w.2.1, Event.logInfoPoint w.1 w.2.1 "up", Event.sleepFor w.2.2]
  else
    [Event.touchMove w.1 w.2.1, Event.logInfoPoint w.1 w.2.1 "move", Event.sleepFor w.2.2]

/-- The `for index, data in enumerate(path)` loop of `_drag_along`, carrying
the running index. -/
def dragGo (len : Nat) : Nat → List (Int × Int × Rat) → List Event
  | _, [] => []
  | i, w :: rest => dragStepEvents len i w ++ dragGo len (i + 1) rest

/-- All events emitted by one invocation of `_drag_along(path)` (source
lines 91-129), excluding the `@retry` wrapper. -/
def drag_along_events (path : List (Int × Int × Rat)) : List Event :=
  dragGo path.length 0 path

lemma dragGo_append (len : Nat) (xs : List (Int × Int × Rat)) :
    ∀ (i : Nat) (ys : List (Int × Int × Rat)),
      dragGo len i (xs ++ ys) = dragGo len i xs ++ dragGo len (i + xs.length) ys := by
  induction xs with
  | nil => intro i ys; simp [dragGo]
  | cons w rest ih =>
    intro i ys
    have harith : i + 1 + rest.length = i + (rest.length + 1) := by omega
    simp [dragGo, ih (i + 1) ys, List.append_assoc, harith]

lemma dragGo_all_move (len : Nat) (xs : List (Int × Int × Rat)) :
    ∀ i, 1 ≤ i → i + xs.length < len →
      dragGo len i xs =
        (xs.map fun w => [Event.touchMove w.1 w.2.1, Event.logInfoPoint w.1 w.2.1 "move",
          Event.sleepFor w.2.2]).flatten := by
  induction xs with
  | nil => intro i _ _; simp [dragGo]
  | cons w rest ih =>
    intro i hi hlen
    simp only [List.length_cons] at hlen
    have h0 : ¬(i = 0) := by omega
    have h1 : ¬(i + 1 = len) := by omega
    simp [dragGo, dragStepEvents, h0, h1, ih (i + 1) (by omega) (by omega)]

lemma drag_along_events_structure (a b : Int × Int × Rat) (mid : List (Int × Int × Rat)) :
    drag_along_events (a :: mid ++ [b]) =
      [Event.touchDown a.1 a.2.1, Event.logInfoPoint a.1 a.2.1 "down", Event.sleepFor a.2.2] ++
      (mid.map fun w => [Event.touchMove w.1 w.2.1, Event.logInfoPoint w.1 w.2.1 "move",
        Event.sleepFor w.2.2]).flatten ++
      [Event.touchUp b.1 b.2.1, Event.logInfoPoint b.1 b.2.1 "up", Event.sleepFor b.2.2] := by
  have hlen : (a :: mid ++ [b]).length = mid.length + 2 := by simp
  unfold drag_along_events
  rw [hlen]
  have hup : dragGo (mid.length + 2) (1 + mid.length) [b] =
      [Event.touchUp b.1 b.2.1, Event.logInfoPoint b.1 b.2.1 "up", Event.sleepFor b.2.2] := by
    simp only [dragGo, dragStepEvents]
    rw [if_neg (by omega), if_pos (by omega)]
    simp
  have hmid : dragGo (mid.length + 2) 1 mid =
      (mid.map fun w => [Event.touchMove w.1 w.2.1, Event.logInfoPoint w.1 w.2.1 "move",
        Event.sleepFor w.2.2]).flatten :=
    dragGo_all_move (mid.length + 2) mid 1 (by omega) (by omega)
  show dragGo (mid.length + 2) 0 (a :: (mid ++ [b])) = _
  simp only [dragGo, dragStepEvents, if_pos rfl]
  rw [dragGo_append (mid.length + 2) mid 1 [b], hmid, hup]
  simp [List.append_assoc, Nat.add_comm]

/-- A `_drag_along` body whose first attempt suffers a transport error
(an `AdbError` the secondary helper marks as handled) after emitting only
the first `k` of the traversal's events, and whose second attempt runs the
whole traversal and succeeds. -/
def dragBodyFailOnce (path : List (Int × Int × Rat)) (k : Nat) :
    Nat → List Event × Except Err Unit :=
  fun i =>
    if i = 0 then ((drag_along_events path).take k, Except.error (Err.adbError true))
    else (drag_along_events path, Except.ok ())

/-- C7: for every path of length at least 2, `_drag_along` issues touch-down
at the first waypoint, touch-move at each interior waypoint and touch-up at
the last, sleeping each waypoint's hold time after its step; and because the
whole traversal is one retryable action, a transport failure after `k`
events of the first attempt restarts the traversal from its very first
event on the next attempt, never resuming mid-gesture. -/
theorem drag_along_traversal_and_whole_path_retry
    (a b : Int × Int × Rat) (mid : List (Int × Int × Rat)) (m k : Nat) :
    drag_along_events (a :: mid ++ [b]) =
      [Event.touchDown a.1 a.2.1, Event.logInfoPoint a.1 a.2.1 "down", Event.sleepFor a.2.2] ++
      (mid.map fun w => [Event.touchMove w.1 w.2.1, Event.logInfoPoint w.1 w.2.1 "move",
        Event.sleepFor w.2.2]).flatten ++
      [Event.touchUp b.1 b.2.1, Event.logInfoPoint b.1 b.2.1 "up", Event.sleepFor b.2.2] ∧
    retry (m + 2) "_drag_along" (dragBodyFailOnce (a :: mid ++ [b]) k) =
      (Event.invoke :: ((drag_along_events (a :: mid ++ [b])).take k ++
        Event.sleepDelay :: Event.invoke :: drag_along_events (a :: mid ++ [b])),
        RetryOutcome.ok ()) := by
  refine ⟨drag_along_events_structure a b mid, ?_⟩
  simp [retry, retryLoop, dragBodyFailOnce, handlerEvents]

/-- Detects a touch-up event. -/
def isTouchUpEv : Event → Bool
  | Event.touchUp _ _ => true
  | _ => false

/-- C9: for a single-waypoint path, `_drag_along` issues only a touch-down
(and its log line and sleep) and never a touch-up, because the
`index == 0` branch takes precedence over the last-index branch; the
down/up pairing holds only for paths of length at least 2. -/
theorem drag_along_single_point_no_up (x y : Int) (s : Rat) :
    drag_along_events [(x, y, s)] =
      [Event.touchDown x y, Event.logInfoPoint x y "down", Event.sleepFor s] ∧
    (drag_along_events [(x, y, s)]).countP isTouchUpEv = 0 ∧
    phaseAt 1 0 = Phase.down :=
  ⟨rfl, rfl, rfl⟩

end Alas
